import Mathlib

/-!
Verification of the bench search/ranking service.

This file embeds the client-side search pipeline of `benchService.search`
(src/services/api.js) and the great-circle helper `calculateDistance`
(same file) in Lean, and proves the specified properties about them.

Modelling conventions:
* JavaScript numbers are modelled as real numbers (`ℝ`) where they feed the
  trigonometric distance computation, and as rationals (`ℚ`) for ratings and
  timestamps, which only ever meet arithmetic and comparisons.
* The two server-side filters (`ilike` on the title, `eq` on `view_type`)
  are modelled as list filters over the given record list: the remote fetch
  returns exactly the records matching them.
* `Array.prototype.sort` with a numeric comparator `c` is, per the ECMAScript
  specification, a stable sort whose output is ordered by `c`; for a total
  preorder this characterises the output uniquely, so it is modelled by
  `List.mergeSort` with `le a b := (c a b ≤ 0)`.
* The `maxDistance` parameter distinguishes three JavaScript argument states:
  omitted (`undefined`, so the default parameter value `10` applies),
  explicit `null` (the default does NOT apply and `maxDistance !== null`
  fails), and an explicit number.
-/

open Real

/-- One joined `bench_ratings` row: `{ view_rating, comfort_rating }`. -/
structure BenchRating where
  view_rating : ℚ
  comfort_rating : ℚ

/-- A bench record as consumed by `benchService.search`: the columns of the
`benches` table that the search pipeline reads, plus the joined ratings.
(The real rows carry further columns — photos, description, … — that the
search logic never inspects, so they are omitted.) -/
structure Bench where
  id : ℕ
  title : String
  view_type : String
  latitude : ℝ
  longitude : ℝ
  created_at : ℚ
  bench_ratings : List BenchRating

/-- `toRadians(degrees)` from api.js: `degrees * (Math.PI / 180)`. -/
noncomputable def toRadians (degrees : ℝ) : ℝ :=
  degrees * (Real.pi / 180)

/-- `Math.atan2(y, x)` of ECMAScript on (non-NaN) reals: the angle of the
point `(x, y)`, in `(-π, π]`, with the usual sign conventions.  Only the
branches with `y ≥ 0` and `x ≥ 0` are ever reached by `calculateDistance`,
which calls it on square roots. -/
noncomputable def atan2 (y x : ℝ) : ℝ :=
  if 0 < x then Real.arctan (y / x)
  else if x < 0 then
    (if 0 ≤ y then Real.arctan (y / x) + Real.pi else Real.arctan (y / x) - Real.pi)
  else if 0 < y then Real.pi / 2
  else if y < 0 then -(Real.pi / 2)
  else 0

/-- The haversine intermediate `a` of `calculateDistance` (api.js):
`sin(dLat/2)·sin(dLat/2) + cos(rad lat1)·cos(rad lat2)·sin(dLon/2)·sin(dLon/2)`. -/
noncomputable def havA (lat1 lon1 lat2 lon2 : ℝ) : ℝ :=
  Real.sin (toRadians (lat2 - lat1) / 2) * Real.sin (toRadians (lat2 - lat1) / 2) +
    Real.cos (toRadians lat1) * Real.cos (toRadians lat2) *
    (Real.sin (toRadians (lon2 - lon1) / 2) * Real.sin (toRadians (lon2 - lon1) / 2))

/-- `calculateDistance(lat1, lon1, lat2, lon2)` from api.js: haversine
great-circle distance in kilometres, `R = 6371`,
`c = 2 * Math.atan2(Math.sqrt(a), Math.sqrt(1 - a))`, result `R * c`. -/
noncomputable def calculateDistance (lat1 lon1 lat2 lon2 : ℝ) : ℝ :=
  6371 * (2 * atan2 (Real.sqrt (havA lat1 lon1 lat2 lon2))
    (Real.sqrt (1 - havA lat1 lon1 lat2 lon2)))

/-- The average-rating computation of `benchService.search` (api.js lines
129–137): `0` when there are no ratings, otherwise
`(totalView + totalComfort) / (ratings.length * 2)` where the totals are
`reduce`-style left folds over the rating rows. -/
def benchAvgRating (ratings : List BenchRating) : ℚ :=
  if 0 < ratings.length then
    (ratings.foldl (fun sum r => sum + r.view_rating) 0 +
      ratings.foldl (fun sum r => sum + r.comfort_rating) 0) /
      ((ratings.length : ℚ) * 2)
  else 0

/-- Does the character list `s` start with `pat`? (helper for the `ilike`
substring model). -/
def charListStarts : List Char → List Char → Bool
  | _, [] => true
  | [], _ :: _ => false
  | c :: s, d :: t => c == d && charListStarts s t

/-- Does the character list `s` contain `pat` as a contiguous run? -/
def charListHas : List Char → List Char → Bool
  | [], pat => charListStarts [] pat
  | s@(_ :: t), pat => charListStarts s pat || charListHas t pat

/-- Case-insensitive substring test: the model of the PostgREST filter
`ilike('title', %q%)` used by the search (api.js line 116).  (SQL pattern
metacharacters inside the query are not modelled; the claims never use
them.) -/
def containsCI (s pat : String) : Bool :=
  charListHas s.toLower.data pat.toLower.data

/-- The `maxDistance` argument of `benchService.search`.  JavaScript
distinguishes the omitted argument (`undefined`: the default parameter
`maxDistance = 10` kicks in) from an explicit `null` (the default does not
apply, and the guard `maxDistance !== null` then disables the filter). -/
inductive MaxDistanceArg where
  | undefined
  | null
  | num (x : ℝ)

/-- The destructured argument object of `benchService.search` (api.js line
99).  Omitted fields are `undefined` in JavaScript, modelled by the `none`
defaults. -/
structure SearchArgs where
  query : Option String := none
  viewType : Option String := none
  ratingFilter : Option ℚ := none
  sortBy : Option String := none
  userLocation : Option (ℝ × ℝ) := none
  maxDistance : MaxDistanceArg := MaxDistanceArg.undefined

/-- A processed bench as constructed at api.js lines 149–154: the original
record (`...bench` spread) plus the derived `avgRating`, `distance`
(`null` when no user location was supplied) and `ratingsCount` fields. -/
structure ProcessedBench where
  bench : Bench
  avgRating : ℚ
  distance : Option ℝ
  ratingsCount : ℕ

/-- The sort keys compared against by `sortBy === '…'`. -/
def sortKeyDistance : String := "distance"

/-- The `rating` sort key. -/
def sortKeyRating : String := "rating"

/-- The `recent` sort key. -/
def sortKeyRecent : String := "recent"

/-- The text filter (api.js lines 115–117): applied only when
`query?.trim()` is truthy, i.e. `query` is present and trims to a non-empty
string; it keeps the records whose title contains the trimmed query
case-insensitively. -/
def textFilterStep (query : Option String) (benches : List Bench) : List Bench :=
  match query with
  | some q => if q.trim ≠ "" then benches.filter (fun b => containsCI b.title q.trim) else benches
  | none => benches

/-- The view-type filter (api.js lines 120–122): applied only when
`viewType` is truthy (present and non-empty); keeps exact matches. -/
def viewFilterStep (viewType : Option String) (benches : List Bench) : List Bench :=
  match viewType with
  | some v => if v ≠ "" then benches.filter (fun b => b.view_type == v) else benches
  | none => benches

/-- The `map` body of api.js lines 129–155: augment a bench with its
average rating, its distance from the user (when a location was given) and
its rating count. -/
noncomputable def processBench (userLocation : Option (ℝ × ℝ)) (b : Bench) : ProcessedBench :=
  { bench := b
    avgRating := benchAvgRating b.bench_ratings
    distance :=
      match userLocation with
      | some loc => some (calculateDistance loc.1 loc.2 b.latitude b.longitude)
      | none => none
    ratingsCount := b.bench_ratings.length }

/-- The value `maxDistance` holds after parameter binding: `undefined`
triggers the default `10`, and the later guard `maxDistance !== null` is
folded in as `Option`: `none` means the filter is disabled. -/
noncomputable def resolveMaxDistance : MaxDistanceArg → Option ℝ
  | MaxDistanceArg.undefined => some 10
  | MaxDistanceArg.null => none
  | MaxDistanceArg.num x => some x

/-- The distance-filter predicate of api.js line 159:
`b.distance !== null && b.distance <= maxDistance`. -/
noncomputable def distancePred (d : ℝ) (b : ProcessedBench) : Bool :=
  match b.distance with
  | some x => decide (x ≤ d)
  | none => false

/-- The distance filter (api.js lines 157–160): only when a user location
was provided and `maxDistance` is not `null`, keep the records with
`distance !== null && distance <= maxDistance`. -/
noncomputable def distanceFilterStep (userLocation : Option (ℝ × ℝ)) (maxD : Option ℝ)
    (l : List ProcessedBench) : List ProcessedBench :=
  match userLocation, maxD with
  | some _, some d => l.filter (distancePred d)
  | _, _ => l

/-- The rating filter (api.js lines 163–165): applied only when
`ratingFilter` is truthy (present and non-zero); keeps the records with
`avgRating >= ratingFilter`. -/
def ratingFilterStep (ratingFilter : Option ℚ) (l : List ProcessedBench) : List ProcessedBench :=
  match ratingFilter with
  | some r => if r ≠ 0 then l.filter (fun b => decide (r ≤ b.avgRating)) else l
  | none => l

/-- The numeric value JavaScript's comparator `a.distance - b.distance`
works on: `null` coerces to `0` under subtraction.  (The `distance` sort
branch only runs with a user location present, in which case every
distance is a number and the coercion is immaterial.) -/
def distanceValue (b : ProcessedBench) : ℝ :=
  b.distance.getD 0

/-- "`a` not after `b`" under the comparator `(a, b) => a.distance - b.distance`
of api.js line 169: the comparator is `≤ 0` iff `a.distance ≤ b.distance`. -/
noncomputable def distanceLE (a b : ProcessedBench) : Bool :=
  decide (distanceValue a ≤ distanceValue b)

/-- "`a` not after `b`" under `(a, b) => b.avgRating - a.avgRating`
(api.js line 171): descending average rating. -/
def ratingLE (a b : ProcessedBench) : Bool :=
  decide (b.avgRating ≤ a.avgRating)

/-- "`a` not after `b`" under
`(a, b) => new Date(b.created_at) - new Date(a.created_at)` (api.js line
173): descending creation timestamp. -/
def recentLE (a b : ProcessedBench) : Bool :=
  decide (b.bench.created_at ≤ a.bench.created_at)

/-- The sort of api.js lines 167–175: ascending distance when
`sortBy === 'distance' && userLocation`, descending average rating for
`'rating'`, descending `created_at` for `'recent'`, and — in every other
case, including an absent `sortBy` — no reordering at all. -/
noncomputable def sortStep (sortBy : Option String) (userLocation : Option (ℝ × ℝ))
    (l : List ProcessedBench) : List ProcessedBench :=
  if sortBy = some sortKeyDistance ∧ userLocation.isSome then
    l.mergeSort distanceLE
  else if sortBy = some sortKeyRating then
    l.mergeSort ratingLE
  else if sortBy = some sortKeyRecent then
    l.mergeSort recentLE
  else l

/-- The pipeline up to and including the distance filter: server-side text
and view-type filters, augmentation (api.js `map`), distance filter. -/
noncomputable def distFiltered (args : SearchArgs) (benches : List Bench) : List ProcessedBench :=
  distanceFilterStep args.userLocation (resolveMaxDistance args.maxDistance)
    ((viewFilterStep args.viewType (textFilterStep args.query benches)).map
      (processBench args.userLocation))

/-- Everything `benchService.search` does before the final sort. -/
noncomputable def benchPipeline (args : SearchArgs) (benches : List Bench) : List ProcessedBench :=
  ratingFilterStep args.ratingFilter (distFiltered args benches)

/-- `benchService.search` (api.js lines 99–177) as a list-in/list-out
transformation: the fetched record list filtered, augmented and sorted. -/
noncomputable def benchSearch (args : SearchArgs) (benches : List Bench) : List ProcessedBench :=
  sortStep args.sortBy args.userLocation (benchPipeline args benches)

/-! ### Lemmas about the haversine distance -/

lemma toRadians_zero : toRadians 0 = 0 := by
  unfold toRadians; ring

lemma sin_half_sq_symm (x y : ℝ) :
    Real.sin (toRadians (x - y) / 2) * Real.sin (toRadians (x - y) / 2) =
      Real.sin (toRadians (y - x) / 2) * Real.sin (toRadians (y - x) / 2) := by
  have h : toRadians (x - y) = -toRadians (y - x) := by unfold toRadians; ring
  rw [h, neg_div, Real.sin_neg]
  ring

lemma havA_symm (lat1 lon1 lat2 lon2 : ℝ) :
    havA lat1 lon1 lat2 lon2 = havA lat2 lon2 lat1 lon1 := by
  unfold havA
  rw [sin_half_sq_symm lat2 lat1, sin_half_sq_symm lon2 lon1]
  ring

lemma havA_self (lat lon : ℝ) : havA lat lon lat lon = 0 := by
  unfold havA
  rw [sub_self lat, sub_self lon, toRadians_zero, zero_div, Real.sin_zero]
  ring

lemma atan2_of_pos {x : ℝ} (y : ℝ) (h : 0 < x) : atan2 y x = Real.arctan (y / x) := by
  unfold atan2
  rw [if_pos h]

lemma atan2_pos_zero {y : ℝ} (h : 0 < y) : atan2 y 0 = Real.pi / 2 := by
  unfold atan2
  rw [if_neg (lt_irrefl 0), if_neg (lt_irrefl 0), if_pos h]

lemma atan2_nonneg {y x : ℝ} (hy : 0 ≤ y) (hx : 0 ≤ x) : 0 ≤ atan2 y x := by
  by_cases h : 0 < x
  · rw [atan2_of_pos y h]
    have := Real.arctan_strictMono.monotone (div_nonneg hy h.le)
    rwa [Real.arctan_zero] at this
  · have hx0 : x = 0 := le_antisymm (not_lt.1 h) hx
    subst hx0
    by_cases hy0 : 0 < y
    · rw [atan2_pos_zero hy0]
      positivity
    · have : y = 0 := le_antisymm (not_lt.1 hy0) hy
      subst this
      unfold atan2
      simp

lemma atan2_le_pi_div_two {y x : ℝ} (hy : 0 ≤ y) (hx : 0 ≤ x) :
    atan2 y x ≤ Real.pi / 2 := by
  by_cases h : 0 < x
  · rw [atan2_of_pos y h]
    exact (Real.arctan_lt_pi_div_two _).le
  · have hx0 : x = 0 := le_antisymm (not_lt.1 h) hx
    subst hx0
    by_cases hy0 : 0 < y
    · rw [atan2_pos_zero hy0]
    · have : y = 0 := le_antisymm (not_lt.1 hy0) hy
      subst this
      unfold atan2
      simp
      positivity

lemma calculateDistance_self (lat lon : ℝ) : calculateDistance lat lon lat lon = 0 := by
  unfold calculateDistance
  rw [havA_self, Real.sqrt_zero, sub_zero, Real.sqrt_one, atan2_of_pos 0 one_pos]
  rw [zero_div, Real.arctan_zero]
  ring

lemma calculateDistance_symm (lat1 lon1 lat2 lon2 : ℝ) :
    calculateDistance lat1 lon1 lat2 lon2 = calculateDistance lat2 lon2 lat1 lon1 := by
  unfold calculateDistance
  rw [havA_symm]

lemma calculateDistance_nonneg (lat1 lon1 lat2 lon2 : ℝ) :
    0 ≤ calculateDistance lat1 lon1 lat2 lon2 := by
  unfold calculateDistance
  have h := atan2_nonneg (Real.sqrt_nonneg (havA lat1 lon1 lat2 lon2))
    (Real.sqrt_nonneg (1 - havA lat1 lon1 lat2 lon2))
  linarith

lemma calculateDistance_le_pi_bound (lat1 lon1 lat2 lon2 : ℝ) :
    calculateDistance lat1 lon1 lat2 lon2 ≤ 6371 * Real.pi := by
  unfold calculateDistance
  have h := atan2_le_pi_div_two (Real.sqrt_nonneg (havA lat1 lon1 lat2 lon2))
    (Real.sqrt_nonneg (1 - havA lat1 lon1 lat2 lon2))
  linarith

lemma havA_antipodal : havA 90 0 (-90) 0 = 1 := by
  have h1 : toRadians (-90 - 90) / 2 = -(Real.pi / 2) := by unfold toRadians; ring
  have h2 : toRadians (0 - 0) / 2 = 0 := by unfold toRadians; ring
  unfold havA
  rw [h1, h2, Real.sin_neg, Real.sin_pi_div_two, Real.sin_zero]
  ring

lemma calculateDistance_antipodal : calculateDistance 90 0 (-90) 0 = 6371 * Real.pi := by
  unfold calculateDistance
  rw [havA_antipodal, sub_self, Real.sqrt_zero, Real.sqrt_one, atan2_pos_zero one_pos]
  ring

/-- Evaluation of the arc `2·atan2(√a, √(1-a))` when `a = sin θ · sin θ`
with `θ` in the first quadrant. -/
lemma atan2_sqrt_sin {θ : ℝ} (h0 : 0 ≤ θ) (hlt : θ < Real.pi / 2) :
    atan2 (Real.sqrt (Real.sin θ * Real.sin θ))
      (Real.sqrt (1 - Real.sin θ * Real.sin θ)) = θ := by
  have hpi := Real.pi_pos
  have hsin : 0 ≤ Real.sin θ :=
    Real.sin_nonneg_of_nonneg_of_le_pi h0 (by linarith)
  have hcos : 0 < Real.cos θ :=
    Real.cos_pos_of_mem_Ioo (Set.mem_Ioo.mpr ⟨by linarith, hlt⟩)
  have h2 : 1 - Real.sin θ * Real.sin θ = Real.cos θ * Real.cos θ := by
    nlinarith [Real.sin_sq_add_cos_sq θ]
  rw [Real.sqrt_mul_self hsin, h2, Real.sqrt_mul_self hcos.le, atan2_of_pos _ hcos]
  rw [← Real.tan_eq_sin_div_cos, Real.arctan_tan (by linarith) hlt]

lemma havA_dateline :
    havA 0 179 0 (-179) = Real.sin (Real.pi / 180) * Real.sin (Real.pi / 180) := by
  have h1 : toRadians (0 - 0) / 2 = 0 := by unfold toRadians; ring
  have h2 : toRadians (-179 - 179) / 2 = -(Real.pi - Real.pi / 180) := by
    unfold toRadians; ring
  unfold havA
  rw [h1, h2, Real.sin_neg, Real.sin_pi_sub, Real.sin_zero, toRadians_zero, Real.cos_zero]
  ring

lemma calculateDistance_dateline :
    calculateDistance 0 179 0 (-179) = 6371 * (2 * (Real.pi / 180)) := by
  have hpi := Real.pi_pos
  unfold calculateDistance
  rw [havA_dateline, atan2_sqrt_sin (by positivity) (by linarith)]

lemma havA_pole : havA 0 0 90 0 = Real.sin (Real.pi / 4) * Real.sin (Real.pi / 4) := by
  have h1 : toRadians (90 - 0) / 2 = Real.pi / 4 := by unfold toRadians; ring
  have h2 : toRadians (0 - 0) / 2 = 0 := by unfold toRadians; ring
  unfold havA
  rw [h1, h2, Real.sin_zero]
  ring

lemma calculateDistance_pole : calculateDistance 0 0 90 0 = 6371 * (2 * (Real.pi / 4)) := by
  have hpi := Real.pi_pos
  unfold calculateDistance
  rw [havA_pole, atan2_sqrt_sin (by positivity) (by linarith)]

/-- **C9**: `calculateDistance` is symmetric — swapping the two coordinate
pairs gives the same value — and returns exactly `0` whenever the two
points have identical latitude and longitude. -/
theorem calculateDistance_symm_and_identity :
    (∀ lat1 lon1 lat2 lon2 : ℝ,
      calculateDistance lat1 lon1 lat2 lon2 = calculateDistance lat2 lon2 lat1 lon1) ∧
    (∀ lat lon : ℝ, calculateDistance lat lon lat lon = 0) :=
  ⟨calculateDistance_symm, calculateDistance_self⟩

/-- **C10**: on the valid coordinate ranges `calculateDistance` is
non-negative and bounded by `6371·π` (< 20016 km); at the antipodal pair
`(90,0)`, `(-90,0)` it is within 100 km of 20015 km; and across the date
line `(0,179)`–`(0,-179)` it is ≈ 222 km (strictly between 222 and
223), not ~358° worth of arc. -/
theorem calculateDistance_range_bounds :
    (∀ lat1 lon1 lat2 lon2 : ℝ,
      -90 ≤ lat1 → lat1 ≤ 90 → -180 ≤ lon1 → lon1 ≤ 180 →
      -90 ≤ lat2 → lat2 ≤ 90 → -180 ≤ lon2 → lon2 ≤ 180 →
      0 ≤ calculateDistance lat1 lon1 lat2 lon2 ∧
        calculateDistance lat1 lon1 lat2 lon2 ≤ 6371 * Real.pi) ∧
    6371 * Real.pi < 20016 ∧
    |calculateDistance 90 0 (-90) 0 - 20015| ≤ 100 ∧
    222 < calculateDistance 0 179 0 (-179) ∧ calculateDistance 0 179 0 (-179) < 223 := by
  have hgt := Real.pi_gt_d6
  have hlt := Real.pi_lt_d6
  refine ⟨fun lat1 lon1 lat2 lon2 _ _ _ _ _ _ _ _ =>
    ⟨calculateDistance_nonneg lat1 lon1 lat2 lon2,
      calculateDistance_le_pi_bound lat1 lon1 lat2 lon2⟩, ?_, ?_, ?_, ?_⟩
  · nlinarith
  · rw [calculateDistance_antipodal, abs_le]
    constructor <;> nlinarith
  · rw [calculateDistance_dateline]
    nlinarith
  · rw [calculateDistance_dateline]
    nlinarith

/-- Witness for the quantified part of `calculateDistance_range_bounds`:
the bounds instantiated at the NYC-ish point `(40, -74)` against `(34, -118)`. -/
theorem calculateDistance_range_bounds_witness :
    ((-90 : ℝ) ≤ 40 ∧ (40 : ℝ) ≤ 90 ∧ (-180 : ℝ) ≤ -74 ∧ (-74 : ℝ) ≤ 180 ∧
      (-90 : ℝ) ≤ 34 ∧ (34 : ℝ) ≤ 90 ∧ (-180 : ℝ) ≤ -118 ∧ (-118 : ℝ) ≤ 180) ∧
    0 ≤ calculateDistance 40 (-74) 34 (-118) ∧
      calculateDistance 40 (-74) 34 (-118) ≤ 6371 * Real.pi :=
  ⟨by norm_num,
    calculateDistance_range_bounds.1 40 (-74) 34 (-118) (by norm_num) (by norm_num)
      (by norm_num) (by norm_num) (by norm_num) (by norm_num) (by norm_num) (by norm_num)⟩

/-! ### Lemmas about the search pipeline -/

lemma mem_textFilterStep {q : Option String} {benches : List Bench} {b : Bench}
    (h : b ∈ textFilterStep q benches) : b ∈ benches := by
  unfold textFilterStep at h
  split at h
  · split at h
    · exact List.mem_of_mem_filter h
    · exact h
  · exact h

lemma mem_viewFilterStep {v : Option String} {benches : List Bench} {b : Bench}
    (h : b ∈ viewFilterStep v benches) : b ∈ benches := by
  unfold viewFilterStep at h
  split at h
  · split at h
    · exact List.mem_of_mem_filter h
    · exact h
  · exact h

lemma distanceFilterStep_none_user (maxD : Option ℝ) (l : List ProcessedBench) :
    distanceFilterStep none maxD l = l := by
  cases maxD <;> rfl

lemma distanceFilterStep_none_max (u : Option (ℝ × ℝ)) (l : List ProcessedBench) :
    distanceFilterStep u none l = l := by
  cases u <;> rfl

lemma mem_distanceFilterStep {u : Option (ℝ × ℝ)} {maxD : Option ℝ}
    {l : List ProcessedBench} {p : ProcessedBench}
    (h : p ∈ distanceFilterStep u maxD l) : p ∈ l := by
  unfold distanceFilterStep at h
  cases u with
  | none => exact h
  | some loc =>
    cases maxD with
    | none => exact h
    | some d => exact List.mem_of_mem_filter h

lemma ratingFilterStep_none (l : List ProcessedBench) : ratingFilterStep none l = l := rfl

lemma ratingFilterStep_some_zero (l : List ProcessedBench) :
    ratingFilterStep (some 0) l = l := by
  show (if (0 : ℚ) ≠ 0 then l.filter (fun b => decide ((0 : ℚ) ≤ b.avgRating)) else l) = l
  rw [if_neg (by simp)]

lemma mem_ratingFilterStep {rf : Option ℚ} {l : List ProcessedBench} {p : ProcessedBench}
    (h : p ∈ ratingFilterStep rf l) : p ∈ l := by
  unfold ratingFilterStep at h
  split at h
  · split at h
    · exact List.mem_of_mem_filter h
    · exact h
  · exact h

lemma mem_ratingFilterStep_iff_of_ne {r : ℚ} (hr : r ≠ 0) {l : List ProcessedBench}
    {p : ProcessedBench} :
    p ∈ ratingFilterStep (some r) l ↔ p ∈ l ∧ r ≤ p.avgRating := by
  show p ∈ (if r ≠ 0 then l.filter (fun b => decide (r ≤ b.avgRating)) else l) ↔ _
  rw [if_pos hr]
  simp [List.mem_filter]

lemma mem_distanceFilterStep_some_iff {loc : ℝ × ℝ} {d : ℝ} {l : List ProcessedBench}
    {p : ProcessedBench} :
    p ∈ distanceFilterStep (some loc) (some d) l ↔
      p ∈ l ∧ ∃ x, p.distance = some x ∧ x ≤ d := by
  unfold distanceFilterStep
  rw [List.mem_filter]
  refine and_congr_right fun _ => ?_
  unfold distancePred
  cases hd : p.distance with
  | none => simp
  | some x => simp

lemma mem_sortStep {s : Option String} {u : Option (ℝ × ℝ)} {l : List ProcessedBench}
    {p : ProcessedBench} : p ∈ sortStep s u l ↔ p ∈ l := by
  unfold sortStep
  split
  · exact List.mem_mergeSort
  · split
    · exact List.mem_mergeSort
    · split
      · exact List.mem_mergeSort
      · exact Iff.rfl

lemma mem_benchSearch_iff_pipeline {args : SearchArgs} {benches : List Bench}
    {p : ProcessedBench} : p ∈ benchSearch args benches ↔ p ∈ benchPipeline args benches :=
  mem_sortStep

lemma mem_distFiltered_eq_processBench {args : SearchArgs} {benches : List Bench}
    {p : ProcessedBench} (h : p ∈ distFiltered args benches) :
    ∃ b ∈ benches, p = processBench args.userLocation b := by
  unfold distFiltered at h
  have h2 := mem_distanceFilterStep h
  obtain ⟨b, hb, heq⟩ := List.mem_map.1 h2
  exact ⟨b, mem_textFilterStep (mem_viewFilterStep hb), heq.symm⟩

lemma mem_benchPipeline_eq_processBench {args : SearchArgs} {benches : List Bench}
    {p : ProcessedBench} (h : p ∈ benchPipeline args benches) :
    ∃ b ∈ benches, p = processBench args.userLocation b :=
  mem_distFiltered_eq_processBench (mem_ratingFilterStep h)

lemma processBench_distance_some (loc : ℝ × ℝ) (b : Bench) :
    (processBench (some loc) b).distance =
      some (calculateDistance loc.1 loc.2 b.latitude b.longitude) := rfl

lemma processBench_distance_none (b : Bench) : (processBench none b).distance = none := rfl

lemma foldl_add_eq_sum (f : BenchRating → ℚ) (ratings : List BenchRating) (init : ℚ) :
    ratings.foldl (fun sum r => sum + f r) init = init + (ratings.map f).sum := by
  induction ratings generalizing init with
  | nil => simp
  | cons r t ih =>
    rw [List.foldl_cons, ih, List.map_cons, List.sum_cons]
    ring

lemma benchAvgRating_eq_sum (ratings : List BenchRating) (h : ratings ≠ []) :
    benchAvgRating ratings =
      ((ratings.map fun r => r.view_rating).sum + (ratings.map fun r => r.comfort_rating).sum) /
        (2 * ratings.length) := by
  unfold benchAvgRating
  rw [if_pos (List.length_pos.2 h), foldl_add_eq_sum, foldl_add_eq_sum]
  rw [zero_add, zero_add, mul_comm ((ratings.length : ℚ)) 2]

lemma benchAvgRating_nonneg (ratings : List BenchRating)
    (hv : ∀ rt ∈ ratings, 0 ≤ rt.view_rating) (hc : ∀ rt ∈ ratings, 0 ≤ rt.comfort_rating) :
    0 ≤ benchAvgRating ratings := by
  unfold benchAvgRating
  split
  · apply div_nonneg
    · rw [foldl_add_eq_sum, foldl_add_eq_sum, zero_add, zero_add]
      have h1 : 0 ≤ (ratings.map fun r => r.view_rating).sum := by
        apply List.sum_nonneg
        intro x hx
        obtain ⟨r, hr, rfl⟩ := List.mem_map.1 hx
        exact hv r hr
      have h2 : 0 ≤ (ratings.map fun r => r.comfort_rating).sum := by
        apply List.sum_nonneg
        intro x hx
        obtain ⟨r, hr, rfl⟩ := List.mem_map.1 hx
        exact hc r hr
      linarith
    · positivity
  · exact le_refl 0

/-! ### Concrete fixtures -/

/-- A fixture bench at the origin with no ratings. -/
def benchNoRatings : Bench :=
  { id := 1, title := "", view_type := "", latitude := 0, longitude := 0,
    created_at := 0, bench_ratings := [] }

/-- A fixture bench with a single rating row `(view 3, comfort 4)`. -/
def benchOneRating : Bench :=
  { id := 2, title := "", view_type := "", latitude := 0, longitude := 0,
    created_at := 0, bench_ratings := [⟨3, 4⟩] }

/-- A fixture bench at the north pole: `calculateDistance` from the origin
is `6371·π/2 ≈ 10007 km`, far beyond the default 10 km cut-off. -/
def benchFarNorth : Bench :=
  { id := 3, title := "", view_type := "", latitude := 90, longitude := 0,
    created_at := 0, bench_ratings := [] }

/-! ### Claims C3 and C4 -/

/-- **C3**: the derived average rating is the pooled mean
`(Σ viewRating + Σ comfortRating) / (2 · #ratings)` for a non-empty rating
list, exactly `0` for an empty one; the fixture
`[(view 1, comfort 1), (view 5, comfort 5)]` averages to `3`; and the
`avgRating` field attached by the pipeline is exactly this value. -/
theorem benchAvgRating_pooled_mean :
    (∀ ratings : List BenchRating, ratings ≠ [] →
      benchAvgRating ratings =
        ((ratings.map fun r => r.view_rating).sum +
          (ratings.map fun r => r.comfort_rating).sum) / (2 * ratings.length)) ∧
    benchAvgRating [] = 0 ∧
    benchAvgRating [⟨1, 1⟩, ⟨5, 5⟩] = 3 ∧
    ∀ (u : Option (ℝ × ℝ)) (b : Bench),
      (processBench u b).avgRating = benchAvgRating b.bench_ratings :=
  ⟨benchAvgRating_eq_sum, rfl, by norm_num [benchAvgRating], fun u b => rfl⟩

/-- Witness for `benchAvgRating_pooled_mean`: the pooled-mean formula
instantiated at the one-element rating list `[(view 2, comfort 4)]`. -/
theorem benchAvgRating_pooled_mean_witness :
    ([⟨2, 4⟩] : List BenchRating) ≠ [] ∧
    benchAvgRating [⟨2, 4⟩] =
      ((([⟨2, 4⟩] : List BenchRating).map fun r => r.view_rating).sum +
        (([⟨2, 4⟩] : List BenchRating).map fun r => r.comfort_rating).sum) /
        (2 * ([⟨2, 4⟩] : List BenchRating).length) :=
  ⟨List.cons_ne_nil _ _, benchAvgRating_pooled_mean.1 [⟨2, 4⟩] (List.cons_ne_nil _ _)⟩

/-- **C4**: with `ratingFilter` set to `r` (and the data-model invariant
that every stored rating value lies in `[1,5]`), the search result is
exactly the rating-filter-free result restricted to `avgRating ≥ r`.
In particular the zero-rating fixture is dropped for `r = 1/100` but kept
when no rating filter is given. -/
theorem benchSearch_rating_filter_exact :
    (∀ (args : SearchArgs) (benches : List Bench) (r : ℚ),
      args.ratingFilter = some r →
      (∀ b ∈ benches, ∀ rt ∈ b.bench_ratings,
        1 ≤ rt.view_rating ∧ rt.view_rating ≤ 5 ∧
          1 ≤ rt.comfort_rating ∧ rt.comfort_rating ≤ 5) →
      ∀ p, p ∈ benchSearch args benches ↔
        p ∈ benchSearch { args with ratingFilter := none } benches ∧ r ≤ p.avgRating) ∧
    benchSearch { ratingFilter := some (1 / 100) } [benchNoRatings] = [] ∧
    benchSearch {} [benchNoRatings] = [processBench none benchNoRatings] := by
  refine ⟨?_, ?_, ?_⟩
  · intro args benches r hr hvalid p
    rw [mem_benchSearch_iff_pipeline, mem_benchSearch_iff_pipeline]
    have hB : benchPipeline { args with ratingFilter := none } benches =
        distFiltered args benches := rfl
    have hA : benchPipeline args benches =
        ratingFilterStep (some r) (distFiltered args benches) := by
      unfold benchPipeline
      rw [hr]
    rw [hA, hB]
    by_cases hr0 : r = 0
    · subst hr0
      rw [ratingFilterStep_some_zero]
      refine ⟨fun hp => ⟨hp, ?_⟩, And.left⟩
      obtain ⟨b, hb, rfl⟩ := mem_distFiltered_eq_processBench hp
      show (0 : ℚ) ≤ benchAvgRating b.bench_ratings
      exact benchAvgRating_nonneg _
        (fun rt hrt => by linarith [(hvalid b hb rt hrt).1])
        (fun rt hrt => by linarith [(hvalid b hb rt hrt).2.2.1])
    · exact mem_ratingFilterStep_iff_of_ne hr0
  · have hlt : ¬ ((1 : ℚ) / 100 ≤ (processBench none benchNoRatings).avgRating) := by
      show ¬ ((1 : ℚ) / 100 ≤ benchAvgRating [])
      norm_num [benchAvgRating]
    have e1 : benchSearch { ratingFilter := some (1 / 100) } [benchNoRatings] =
        ratingFilterStep (some (1 / 100)) [processBench none benchNoRatings] := rfl
    rw [e1]
    show (if (1 / 100 : ℚ) ≠ 0 then
        List.filter (fun b => decide ((1 / 100 : ℚ) ≤ b.avgRating))
          [processBench none benchNoRatings]
      else [processBench none benchNoRatings]) = []
    rw [if_pos (by norm_num), List.filter_cons, decide_eq_false hlt]
    simp
  · rfl

/-- Witness for `benchSearch_rating_filter_exact`: the characterisation
instantiated with `ratingFilter = 2` over the single valid-rating fixture. -/
theorem benchSearch_rating_filter_exact_witness :
    ({ ratingFilter := some 2 } : SearchArgs).ratingFilter = some 2 ∧
    ∀ p, p ∈ benchSearch { ratingFilter := some 2 } [benchOneRating] ↔
      p ∈ benchSearch { ({ ratingFilter := some 2 } : SearchArgs) with
          ratingFilter := none } [benchOneRating] ∧ 2 ≤ p.avgRating :=
  ⟨rfl, benchSearch_rating_filter_exact.1 { ratingFilter := some 2 } [benchOneRating] 2 rfl
    (by
      intro b hb
      rw [List.mem_singleton] at hb
      subst hb
      intro rt hrt
      revert rt
      decide)⟩

lemma mem_ratingFilterStep_iff {rf : Option ℚ} {l : List ProcessedBench} {p : ProcessedBench} :
    p ∈ ratingFilterStep rf l ↔
      p ∈ l ∧ ∀ r, rf = some r → r ≠ 0 → r ≤ p.avgRating := by
  cases rf with
  | none =>
    rw [ratingFilterStep_none]
    simp
  | some r =>
    by_cases hr : r = 0
    · subst hr
      rw [ratingFilterStep_some_zero]
      simp
    · rw [mem_ratingFilterStep_iff_of_ne hr]
      simp [hr]

lemma mem_map_processBench_some {loc : ℝ × ℝ} {benches : List Bench} {p : ProcessedBench}
    (h : p ∈ benches.map (processBench (some loc))) : ∃ x, p.distance = some x := by
  obtain ⟨b, hb, rfl⟩ := List.mem_map.1 h
  exact ⟨_, rfl⟩

/-! ### Claim C5 -/

/-- **C5**: with `maxDistance` an explicit number `d`, the search result is
exactly the distance-filter-free result restricted to the records whose
(present) distance is `≤ d`; a record whose distance is `null` — which
happens exactly when the user location is absent — is never excluded by the
distance filter, because the filter is skipped entirely. -/
theorem benchSearch_distance_filter_exact :
    ∀ (args : SearchArgs) (benches : List Bench) (d : ℝ),
      args.maxDistance = MaxDistanceArg.num d →
      (∀ p, p ∈ benchSearch args benches ↔
        p ∈ benchSearch { args with maxDistance := MaxDistanceArg.null } benches ∧
          ∀ x, p.distance = some x → x ≤ d) ∧
      (args.userLocation = none → ∀ p ∈ benchSearch args benches, p.distance = none) := by
  intro args benches d hmax
  constructor
  · intro p
    rw [mem_benchSearch_iff_pipeline, mem_benchSearch_iff_pipeline]
    have hnull : benchPipeline { args with maxDistance := MaxDistanceArg.null } benches =
        ratingFilterStep args.ratingFilter
          ((viewFilterStep args.viewType (textFilterStep args.query benches)).map
            (processBench args.userLocation)) := by
      unfold benchPipeline distFiltered
      simp only [resolveMaxDistance]
      rw [distanceFilterStep_none_max]
    have hnum : benchPipeline args benches =
        ratingFilterStep args.ratingFilter
          (distanceFilterStep args.userLocation (some d)
            ((viewFilterStep args.viewType (textFilterStep args.query benches)).map
              (processBench args.userLocation))) := by
      unfold benchPipeline distFiltered
      rw [hmax]
      simp only [resolveMaxDistance]
    rw [hnum, hnull]
    cases hu : args.userLocation with
    | none =>
      rw [distanceFilterStep_none_user]
      constructor
      · intro hp
        refine ⟨hp, fun x hx => ?_⟩
        obtain ⟨b, hb, heq⟩ := List.mem_map.1 (mem_ratingFilterStep hp)
        rw [← heq, processBench_distance_none] at hx
        exact absurd hx (by simp)
      · exact And.left
    | some loc =>
      rw [mem_ratingFilterStep_iff, mem_ratingFilterStep_iff, mem_distanceFilterStep_some_iff]
      constructor
      · rintro ⟨⟨hpM, x, hx, hxd⟩, hC⟩
        refine ⟨⟨hpM, hC⟩, fun y hy => ?_⟩
        rw [hx] at hy
        exact Option.some.inj hy ▸ hxd
      · rintro ⟨⟨hpM, hC⟩, hD⟩
        obtain ⟨x, hx⟩ := mem_map_processBench_some hpM
        exact ⟨⟨hpM, x, hx, hD x hx⟩, hC⟩
  · intro hnone p hp
    obtain ⟨b, hb, rfl⟩ :=
      mem_benchPipeline_eq_processBench (mem_benchSearch_iff_pipeline.1 hp)
    rw [hnone]
    exact processBench_distance_none b

/-- Witness for `benchSearch_distance_filter_exact`: instantiated with an
explicit `maxDistance = 5` over the origin fixture. -/
theorem benchSearch_distance_filter_exact_witness :
    ({ maxDistance := MaxDistanceArg.num 5 } : SearchArgs).maxDistance =
      MaxDistanceArg.num 5 ∧
    ∀ p, p ∈ benchSearch { maxDistance := MaxDistanceArg.num 5 } [benchNoRatings] ↔
      p ∈ benchSearch { ({ maxDistance := MaxDistanceArg.num 5 } : SearchArgs) with
          maxDistance := MaxDistanceArg.null } [benchNoRatings] ∧
        ∀ x, p.distance = some x → x ≤ 5 :=
  ⟨rfl, (benchSearch_distance_filter_exact { maxDistance := MaxDistanceArg.num 5 }
    [benchNoRatings] 5 rfl).1⟩

/-! ### Claims C2 and C1 -/

lemma textFilterStep_none (benches : List Bench) : textFilterStep none benches = benches := rfl

lemma viewFilterStep_none (benches : List Bench) : viewFilterStep none benches = benches := rfl

lemma calculateDistance_pole_gt_10 : ¬ (calculateDistance 0 0 90 0 ≤ 10) := by
  rw [calculateDistance_pole]
  nlinarith [Real.pi_gt_three]

/-- With every argument omitted except a user location at the origin, the
far-north fixture is dropped by the default 10 km distance filter. -/
lemma search_far_default_drop :
    benchSearch { userLocation := some (0, 0) } [benchFarNorth] = [] := by
  have e1 : benchSearch { userLocation := some (0, 0) } [benchFarNorth] =
      List.filter (distancePred 10) [processBench (some (0, 0)) benchFarNorth] := rfl
  have hp : distancePred 10 (processBench (some (0, 0)) benchFarNorth) = false := by
    show decide (calculateDistance 0 0 90 0 ≤ 10) = false
    exact decide_eq_false calculateDistance_pole_gt_10
  rw [e1, List.filter_cons, hp]
  simp

/-- With `maxDistance` explicitly `null`, the far-north fixture is kept. -/
lemma search_far_null_keep :
    benchSearch { userLocation := some (0, 0), maxDistance := MaxDistanceArg.null }
      [benchFarNorth] = [processBench (some (0, 0)) benchFarNorth] := rfl

/-- **C2**: omitting `maxDistance` (JavaScript `undefined`) behaves exactly
like passing the default `10`; passing `null` disables the distance filter
entirely; and on the far-north fixture with a user location the two calls
return different results (`[]` versus the record kept). -/
theorem benchSearch_maxDistance_undefined_vs_null :
    (∀ (args : SearchArgs) (benches : List Bench),
      args.maxDistance = MaxDistanceArg.undefined →
      benchSearch args benches =
        benchSearch { args with maxDistance := MaxDistanceArg.num 10 } benches) ∧
    (∀ (args : SearchArgs) (benches : List Bench),
      args.maxDistance = MaxDistanceArg.null →
      benchSearch args benches =
        sortStep args.sortBy args.userLocation
          (ratingFilterStep args.ratingFilter
            ((viewFilterStep args.viewType (textFilterStep args.query benches)).map
              (processBench args.userLocation)))) ∧
    benchSearch { userLocation := some (0, 0) } [benchFarNorth] = [] ∧
    benchSearch { userLocation := some (0, 0), maxDistance := MaxDistanceArg.null }
      [benchFarNorth] = [processBench (some (0, 0)) benchFarNorth] ∧
    benchSearch { userLocation := some (0, 0) } [benchFarNorth] ≠
      benchSearch { userLocation := some (0, 0), maxDistance := MaxDistanceArg.null }
        [benchFarNorth] := by
  refine ⟨?_, ?_, search_far_default_drop, search_far_null_keep, ?_⟩
  · intro args benches h
    unfold benchSearch benchPipeline distFiltered
    rw [h]
    rfl
  · intro args benches h
    unfold benchSearch benchPipeline distFiltered
    rw [h]
    simp only [resolveMaxDistance]
    rw [distanceFilterStep_none_max]
  · rw [search_far_default_drop, search_far_null_keep]
    exact fun hcontra => List.noConfusion hcontra

/-- Witness for `benchSearch_maxDistance_undefined_vs_null`: the
undefined-equals-ten clause at the far-north fixture. -/
theorem benchSearch_maxDistance_undefined_vs_null_witness :
    ({ userLocation := some (0, 0) } : SearchArgs).maxDistance =
      MaxDistanceArg.undefined ∧
    benchSearch { userLocation := some (0, 0) } [benchFarNorth] =
      benchSearch { ({ userLocation := some (0, 0) } : SearchArgs) with
        maxDistance := MaxDistanceArg.num 10 } [benchFarNorth] :=
  ⟨rfl, benchSearch_maxDistance_undefined_vs_null.1 { userLocation := some (0, 0) }
    [benchFarNorth] rfl⟩

/-- **C1** (counterexample): with every filter field absent — `query`,
`viewType`, `ratingFilter` and `maxDistance` all omitted — but a user
location supplied, `benchService.search` does NOT return every input
record: the omitted `maxDistance` defaults to `10`, and the far-north
record (≈10007 km away) is dropped, leaving the empty list. -/
theorem benchSearch_not_identity_counterexample :
    benchSearch { userLocation := some (0, 0) } [benchFarNorth] = [] ∧
    [benchFarNorth] ≠ [] :=
  ⟨search_far_default_drop, List.cons_ne_nil _ _⟩

/-- **C1** (amended): with every filter field absent, `benchService.search`
is an identity pass-through — every record augmented and re-ordered only by
the sort step — PROVIDED the user location is absent or `maxDistance` is an
explicit `null`; when a user location is present and `maxDistance` is
omitted, the default 10 km distance filter applies instead (see
`benchSearch_not_identity_counterexample`). -/
theorem benchSearch_identity_passthrough_amended :
    ∀ (args : SearchArgs) (benches : List Bench),
      args.query = none → args.viewType = none → args.ratingFilter = none →
      (args.userLocation = none ∨ args.maxDistance = MaxDistanceArg.null) →
      benchSearch args benches =
        sortStep args.sortBy args.userLocation
          (benches.map (processBench args.userLocation)) := by
  intro args benches hq hv hr hor
  unfold benchSearch benchPipeline distFiltered
  rw [hq, hv, hr, textFilterStep_none, viewFilterStep_none, ratingFilterStep_none]
  cases hor with
  | inl h => rw [h, distanceFilterStep_none_user]
  | inr h =>
    rw [h]
    simp only [resolveMaxDistance]
    rw [distanceFilterStep_none_max]

/-- Witness for `benchSearch_identity_passthrough_amended`: the empty
query over the one-rating fixture with no user location. -/
theorem benchSearch_identity_passthrough_amended_witness :
    (({} : SearchArgs).query = none ∧ ({} : SearchArgs).viewType = none ∧
      ({} : SearchArgs).ratingFilter = none ∧ ({} : SearchArgs).userLocation = none) ∧
    benchSearch {} [benchOneRating] =
      sortStep none none ([benchOneRating].map (processBench none)) :=
  ⟨⟨rfl, rfl, rfl, rfl⟩,
    benchSearch_identity_passthrough_amended {} [benchOneRating] rfl rfl rfl (Or.inl rfl)⟩

/-! ### Claim C6 -/

lemma sortStep_none (u : Option (ℝ × ℝ)) (l : List ProcessedBench) :
    sortStep none u l = l := rfl

/-- **C6** (counterexample): with `sortBy` unspecified and the user at the
origin (`maxDistance := null` so nothing is filtered), the output keeps the
input order `[far, near]` even though the first record is strictly farther
than the second — `benchService.search` does NOT default to distance
sorting. -/
theorem benchSearch_no_default_sort_counterexample :
    benchSearch { userLocation := some (0, 0), maxDistance := MaxDistanceArg.null }
        [benchFarNorth, benchNoRatings] =
      [processBench (some (0, 0)) benchFarNorth,
        processBench (some (0, 0)) benchNoRatings] ∧
    (processBench (some (0, 0)) benchNoRatings).distance = some 0 ∧
    (processBench (some (0, 0)) benchFarNorth).distance =
      some (6371 * (2 * (Real.pi / 4))) ∧
    (0 : ℝ) < 6371 * (2 * (Real.pi / 4)) := by
  refine ⟨rfl, ?_, ?_, by positivity⟩
  · show some (calculateDistance 0 0 0 0) = some 0
    rw [calculateDistance_self]
  · show some (calculateDistance 0 0 90 0) = some (6371 * (2 * (Real.pi / 4)))
    rw [calculateDistance_pole]

/-- **C6** (amended): when `sortBy` is unspecified, `benchService.search`
applies no sorting at all — the result is the filtered pipeline in its
input order, not a distance-ordered list. -/
theorem benchSearch_no_sortBy_is_unsorted :
    ∀ (args : SearchArgs) (benches : List Bench),
      args.sortBy = none →
      benchSearch args benches = benchPipeline args benches := by
  intro args benches h
  unfold benchSearch
  rw [h, sortStep_none]

/-- Witness for `benchSearch_no_sortBy_is_unsorted` at the two-bench
fixture of the counterexample. -/
theorem benchSearch_no_sortBy_is_unsorted_witness :
    ({ userLocation := some (0, 0), maxDistance := MaxDistanceArg.null } :
      SearchArgs).sortBy = none ∧
    benchSearch { userLocation := some (0, 0), maxDistance := MaxDistanceArg.null }
        [benchFarNorth, benchNoRatings] =
      benchPipeline { userLocation := some (0, 0), maxDistance := MaxDistanceArg.null }
        [benchFarNorth, benchNoRatings] :=
  ⟨rfl, benchSearch_no_sortBy_is_unsorted _ _ rfl⟩

/-! ### Claims C7 and C8 -/

lemma distanceLE_trans : ∀ a b c : ProcessedBench,
    distanceLE a b → distanceLE b c → distanceLE a c := by
  intro a b c hab hbc
  simp only [distanceLE, decide_eq_true_eq] at hab hbc ⊢
  exact le_trans hab hbc

lemma distanceLE_total : ∀ a b : ProcessedBench, distanceLE a b || distanceLE b a := by
  intro a b
  simp only [distanceLE]
  rcases le_total (distanceValue a) (distanceValue b) with h | h <;> simp [h]

lemma ratingLE_trans : ∀ a b c : ProcessedBench,
    ratingLE a b → ratingLE b c → ratingLE a c := by
  intro a b c hab hbc
  simp only [ratingLE, decide_eq_true_eq] at hab hbc ⊢
  exact le_trans hbc hab

lemma ratingLE_total : ∀ a b : ProcessedBench, ratingLE a b || ratingLE b a := by
  intro a b
  simp only [ratingLE]
  rcases le_total a.avgRating b.avgRating with h | h <;> simp [h]

lemma recentLE_trans : ∀ a b c : ProcessedBench,
    recentLE a b → recentLE b c → recentLE a c := by
  intro a b c hab hbc
  simp only [recentLE, decide_eq_true_eq] at hab hbc ⊢
  exact le_trans hbc hab

lemma recentLE_total : ∀ a b : ProcessedBench, recentLE a b || recentLE b a := by
  intro a b
  simp only [recentLE]
  rcases le_total a.bench.created_at b.bench.created_at with h | h <;> simp [h]

lemma sortStep_distance_some (loc : ℝ × ℝ) (l : List ProcessedBench) :
    sortStep (some sortKeyDistance) (some loc) l = l.mergeSort distanceLE := by
  unfold sortStep
  rw [if_pos ⟨rfl, rfl⟩]

lemma sortStep_distance_none_user (l : List ProcessedBench) :
    sortStep (some sortKeyDistance) none l = l := by
  unfold sortStep
  rw [if_neg (by rintro ⟨-, h⟩; simp at h),
    if_neg (by intro h; exact absurd (Option.some.inj h) (by decide)),
    if_neg (by intro h; exact absurd (Option.some.inj h) (by decide))]

lemma sortStep_rating (u : Option (ℝ × ℝ)) (l : List ProcessedBench) :
    sortStep (some sortKeyRating) u l = l.mergeSort ratingLE := by
  unfold sortStep
  rw [if_neg (by rintro ⟨h, -⟩; exact absurd (Option.some.inj h) (by decide)), if_pos rfl]

lemma sortStep_recent (u : Option (ℝ × ℝ)) (l : List ProcessedBench) :
    sortStep (some sortKeyRecent) u l = l.mergeSort recentLE := by
  unfold sortStep
  rw [if_neg (by rintro ⟨h, -⟩; exact absurd (Option.some.inj h) (by decide)),
    if_neg (by intro h; exact absurd (Option.some.inj h) (by decide)), if_pos rfl]

/-- **C7**: the final order follows the sort key: `'distance'` with a user
location yields ascending `distance` (and every output record has a known
distance); `'distance'` without a user location leaves the pipeline order
(all distances `null`); `'rating'` yields descending `avgRating`;
`'recent'` yields descending `created_at`. -/
theorem benchSearch_sort_orders :
    ∀ (args : SearchArgs) (benches : List Bench),
      (args.sortBy = some sortKeyDistance → ∀ loc, args.userLocation = some loc →
        (benchSearch args benches).Pairwise
          (fun a b => distanceValue a ≤ distanceValue b) ∧
        ∀ p ∈ benchSearch args benches, p.distance.isSome = true) ∧
      (args.sortBy = some sortKeyDistance → args.userLocation = none →
        benchSearch args benches = benchPipeline args benches ∧
        ∀ p ∈ benchSearch args benches, p.distance = none) ∧
      (args.sortBy = some sortKeyRating →
        (benchSearch args benches).Pairwise (fun a b => b.avgRating ≤ a.avgRating)) ∧
      (args.sortBy = some sortKeyRecent →
        (benchSearch args benches).Pairwise
          (fun a b => b.bench.created_at ≤ a.bench.created_at)) := by
  intro args benches
  refine ⟨?_, ?_, ?_, ?_⟩
  · intro hs loc hu
    constructor
    · unfold benchSearch
      rw [hs, hu, sortStep_distance_some]
      exact (List.sorted_mergeSort distanceLE_trans distanceLE_total _).imp
        (fun h => by simpa [distanceLE] using h)
    · intro p hp
      obtain ⟨b, hb, rfl⟩ :=
        mem_benchPipeline_eq_processBench (mem_benchSearch_iff_pipeline.1 hp)
      rw [hu]
      rfl
  · intro hs hu
    have he : benchSearch args benches = benchPipeline args benches := by
      unfold benchSearch
      rw [hs, hu, sortStep_distance_none_user]
    refine ⟨he, fun p hp => ?_⟩
    obtain ⟨b, hb, rfl⟩ :=
      mem_benchPipeline_eq_processBench (mem_benchSearch_iff_pipeline.1 hp)
    rw [hu]
    exact processBench_distance_none b
  · intro hs
    unfold benchSearch
    rw [hs, sortStep_rating]
    exact (List.sorted_mergeSort ratingLE_trans ratingLE_total _).imp
      (fun h => by simpa [ratingLE] using h)
  · intro hs
    unfold benchSearch
    rw [hs, sortStep_recent]
    exact (List.sorted_mergeSort recentLE_trans recentLE_total _).imp
      (fun h => by simpa [recentLE] using h)

/-- Witness for `benchSearch_sort_orders`: the `'recent'` clause over a
two-bench fixture list. -/
theorem benchSearch_sort_orders_witness :
    ({ sortBy := some sortKeyRecent } : SearchArgs).sortBy = some sortKeyRecent ∧
    (benchSearch { sortBy := some sortKeyRecent }
      [benchNoRatings, benchOneRating]).Pairwise
        (fun a b => b.bench.created_at ≤ a.bench.created_at) :=
  ⟨rfl, (benchSearch_sort_orders { sortBy := some sortKeyRecent }
    [benchNoRatings, benchOneRating]).2.2.2 rfl⟩

/-- **C8**: the sort is stable: two records that compare equal under the
active sort key keep their relative (pre-sort) pipeline order in the
output.  (Determinism itself is immediate in this embedding, since
`benchSearch` is a pure function of its arguments.) -/
theorem benchSearch_sort_stable :
    ∀ (args : SearchArgs) (benches : List Bench) (a b : ProcessedBench),
      (args.sortBy = some sortKeyRating → a.avgRating = b.avgRating →
        [a, b].Sublist (benchPipeline args benches) →
        [a, b].Sublist (benchSearch args benches)) ∧
      (args.sortBy = some sortKeyDistance → distanceValue a = distanceValue b →
        [a, b].Sublist (benchPipeline args benches) →
        [a, b].Sublist (benchSearch args benches)) ∧
      (args.sortBy = some sortKeyRecent → a.bench.created_at = b.bench.created_at →
        [a, b].Sublist (benchPipeline args benches) →
        [a, b].Sublist (benchSearch args benches)) := by
  intro args benches a b
  refine ⟨?_, ?_, ?_⟩
  · intro hs heq hsub
    unfold benchSearch
    rw [hs, sortStep_rating]
    refine List.sublist_mergeSort ratingLE_trans ratingLE_total ?_ hsub
    refine List.pairwise_cons.2 ⟨fun y hy => ?_, List.pairwise_singleton _ _⟩
    rw [List.mem_singleton] at hy
    subst hy
    simp [ratingLE, heq]
  · intro hs heq hsub
    cases hu : args.userLocation with
    | none =>
      unfold benchSearch
      rw [hs, hu, sortStep_distance_none_user]
      exact hsub
    | some loc =>
      unfold benchSearch
      rw [hs, hu, sortStep_distance_some]
      refine List.sublist_mergeSort distanceLE_trans distanceLE_total ?_ hsub
      refine List.pairwise_cons.2 ⟨fun y hy => ?_, List.pairwise_singleton _ _⟩
      rw [List.mem_singleton] at hy
      subst hy
      simp [distanceLE, heq]
  · intro hs heq hsub
    unfold benchSearch
    rw [hs, sortStep_recent]
    refine List.sublist_mergeSort recentLE_trans recentLE_total ?_ hsub
    refine List.pairwise_cons.2 ⟨fun y hy => ?_, List.pairwise_singleton _ _⟩
    rw [List.mem_singleton] at hy
    subst hy
    simp [recentLE, heq]

/-- Witness for `benchSearch_sort_stable`: the `'rating'` clause over a
duplicated zero-rating fixture (ties everywhere). -/
theorem benchSearch_sort_stable_witness :
    ({ sortBy := some sortKeyRating } : SearchArgs).sortBy = some sortKeyRating ∧
    (processBench none benchNoRatings).avgRating =
      (processBench none benchNoRatings).avgRating ∧
    [processBench none benchNoRatings, processBench none benchNoRatings].Sublist
      (benchPipeline { sortBy := some sortKeyRating }
        [benchNoRatings, benchNoRatings]) ∧
    [processBench none benchNoRatings, processBench none benchNoRatings].Sublist
      (benchSearch { sortBy := some sortKeyRating }
        [benchNoRatings, benchNoRatings]) := by
  have hsub : [processBench none benchNoRatings, processBench none benchNoRatings].Sublist
      (benchPipeline { sortBy := some sortKeyRating } [benchNoRatings, benchNoRatings]) := by
    show [processBench none benchNoRatings, processBench none benchNoRatings].Sublist
      [processBench none benchNoRatings, processBench none benchNoRatings]
    exact List.Sublist.refl _
  exact ⟨rfl, rfl, hsub,
    (benchSearch_sort_stable { sortBy := some sortKeyRating }
      [benchNoRatings, benchNoRatings] (processBench none benchNoRatings)
      (processBench none benchNoRatings)).1 rfl rfl hsub⟩
